import Mathlib

/-!
Verification development for the tophu multi-scale phase-unwrapping framework.

The development shallowly embeds two parts of the repository:

* `tophu/unwrap.py` (present in the sources): the `SnaphuUnwrap` callback functor
  and its argument validation and raster plumbing.

* `tophu/multiscale.py` (absent from the sources; only its test suite
  `test/test_multiscale.py` is available): the tile-geometry helper
  `get_tile_dims`, the per-tile unwrapper, and the `multiscale_unwrap`
  orchestrator.  These are modelled from the specification, with the exact
  error messages taken from the test suite.

Conventions of the embedding:

* Pixels are pairs of natural numbers `(row, col)`; 2-D arrays are modelled as
  a shape together with a total data function on pixels.
* Phase values are rational numbers measured in cycles (one cycle = 2*pi
  radians), so "an integer multiple of 2*pi" becomes "an integer".
* Complex interferogram samples are modelled as pairs of rationals
  (real part, imaginary part); they are treated opaquely by the orchestrator.
* Fallible operations return `Except String` or pair their result with an
  `Option String` error slot; Python exceptions become error values.
-/

namespace Tophu

/-- A pixel coordinate: (row, column). -/
abbrev Pix : Type := ℕ × ℕ

/-- Real-valued 2-D field (phase, correlation, power), indexed by pixel. -/
abbrev RArr : Type := Pix → ℚ

/-- Complex-valued 2-D field (interferogram), a sample is (re, im). -/
abbrev CArr : Type := Pix → ℚ × ℚ

/-- Unsigned-integer-valued 2-D field (connected-component labels). -/
abbrev LArr : Type := Pix → ℕ

/-- Boolean 2-D field (valid-pixel mask). -/
abbrev BArr : Type := Pix → Bool

/-!
## Tile geometry: `get_tile_dims(shape, ntiles, snap_to=None)`

Modelled from the spec: `tophu/multiscale.py` is not among the sources, so the
function is reconstructed from spec section 4.1 and the exact error messages
of `test/test_multiscale.py` (class `TestGetTileDims`).
-/

/-- Ceiling division on naturals: `ceil_div a b = ceil(a / b)` for `b >= 1`. -/
def ceil_div (a b : ℕ) : ℕ :=
  (a + b - 1) / b

/-- Round `n` up to the next multiple of `m` (for `m >= 1`). -/
def snap_up (n m : ℕ) : ℕ :=
  m * ceil_div n m

/-- Modelled from the spec: `get_tile_dims` of `tophu/multiscale.py` (absent
from the sources).  For axis `i`, the raw tile length is
`ceil(shape[i] / ntiles[i])`; if `snap_to` is given, the raw length is rounded
up to the next multiple of `snap_to[i]`.  Error messages are the ones matched
by `test/test_multiscale.py`; an entry `< 1` of a natural-number sequence is
an entry equal to `0`. -/
def get_tile_dims (shape ntiles : List ℕ) (snap_to : Option (List ℕ)) :
    Except String (List ℕ) :=
  match snap_to with
  | none =>
    if shape.length ≠ ntiles.length then
      .error "size mismatch: shape and ntiles must have same length"
    else if 0 ∈ shape then
      .error "array axis lengths must be >= 1"
    else if 0 ∈ ntiles then
      .error "number of tiles must be >= 1"
    else
      .ok (List.zipWith ceil_div shape ntiles)
  | some st =>
    if shape.length ≠ ntiles.length then
      .error "size mismatch: shape and ntiles must have same length"
    else if st.length ≠ shape.length then
      .error "size mismatch: shape and snap_to must have same length"
    else if 0 ∈ shape then
      .error "array axis lengths must be >= 1"
    else if 0 ∈ ntiles then
      .error "number of tiles must be >= 1"
    else if 0 ∈ st then
      .error "snap_to lengths must be >= 1"
    else
      .ok (List.zipWith snap_up (List.zipWith ceil_div shape ntiles) st)

/-!
## SNAPHU backend wrapper: `tophu/unwrap.py`

This part embeds the code that IS present in the sources.
-/

/-- A 2-D array with an explicit shape, as handed to the SNAPHU wrapper. -/
structure Arr2 (α : Type) where
  length : ℕ
  width : ℕ
  data : Pix → α

/-- The allowed cost modes of `SnaphuUnwrap` (unwrap.py line 85). -/
def snaphu_cost_modes : List String :=
  ["topo", "defo", "smooth", "p-norm"]

/-- The allowed initialization methods of `SnaphuUnwrap` (unwrap.py line 87). -/
def snaphu_init_methods : List String :=
  ["mst", "mcf"]

/-- The validated fields of a `SnaphuUnwrap` dataclass instance. -/
structure SnaphuUnwrapM where
  cost : String
  init_method : String

/-- Embeds `SnaphuUnwrap.__post_init__` (unwrap.py lines 89-93): construction
fails with a `ValueError` naming the offending value when `cost` is not an
allowed cost mode or `init_method` is not an allowed initialization method.
The surrounding quote characters of the Python f-string are elided from the
messages. -/
def snaphu_unwrap_make (cost init_method : String) : Except String SnaphuUnwrapM :=
  if cost ∉ snaphu_cost_modes then
    .error ("unexpected cost mode " ++ cost)
  else if init_method ∉ snaphu_init_methods then
    .error ("unexpected initialization method " ++ init_method)
  else
    .ok ⟨cost, init_method⟩

/-- Numpy cast of a (nonnegative) floating value to `uint8`: truncate toward
zero and wrap modulo 256. -/
def rat_to_uint8 (q : ℚ) : ℕ :=
  q.floor.toNat % 256

/-- Conversion of a boolean to `uint8` (`True` becomes 1, `False` becomes 0). -/
def bool_to_uint8 (b : Bool) : ℕ :=
  if b then 1 else 0

/-- Embeds unwrap.py lines 144-146: when the caller supplies a `mask`, the data
of the mask raster forwarded to SNAPHU is computed as
`np.asanyarray(pwr, dtype=np.uint8)` — from the local variable `pwr`, which at
that point holds the power raster when one was supplied and `None` otherwise.
Converting `None` to a `uint8` array raises a `TypeError` in numpy; converting
the power raster forwards the (cast) power values.  The result is `none` when
no mask was supplied (the mask argument stays `None`). -/
def snaphu_mask_raster (pwr : Option (Arr2 ℚ)) (mask : Option (Arr2 Bool)) :
    Option (Except String (Arr2 ℕ)) :=
  match mask with
  | none => none
  | some _ =>
    match pwr with
    | none => some (.error "TypeError: cannot convert None to an array of dtype uint8")
    | some p => some (.ok ⟨p.length, p.width, fun q => rat_to_uint8 (p.data q)⟩)

/-- Modelled from the spec: the mask raster that the `UnwrapBackend` contract
(spec section 6) and the docstring of `SnaphuUnwrap.__call__` promise to
forward — the caller-supplied boolean mask converted to `uint8`, with `True`
(valid pixel) becoming 1. -/
def spec_mask_raster (mask : Option (Arr2 Bool)) : Option (Arr2 ℕ) :=
  mask.map (fun m => ⟨m.length, m.width, fun q => bool_to_uint8 (m.data q)⟩)

/-- The external SNAPHU solver (`isce3.unwrap.snaphu.unwrap`), out of scope of
this core: given the configured functor fields, the output shape and the input
rasters, it fills the pre-allocated output rasters; modelled as producing the
fill value for every pixel of the output arrays. -/
abbrev SnaphuSolver : Type :=
  SnaphuUnwrapM → ℕ × ℕ → Arr2 (ℚ × ℚ) → Arr2 ℚ → ℚ → Option (Arr2 ℚ) →
    Option (Arr2 ℕ) → Option (Arr2 ℚ) → RArr × LArr

/-- Embeds `SnaphuUnwrap.__call__` (unwrap.py lines 95-174): convert the
inputs to rasters (including the mask raster of `snaphu_mask_raster`, whose
conversion can raise), take the output shape from the interferogram raster,
allocate the output unwrapped-phase (real) and connected-component-label
(unsigned integer, 0 = invalid) arrays with that shape, run the solver to fill
them, and return the pair. -/
def snaphu_call (solver : SnaphuSolver) (u : SnaphuUnwrapM) (igram : Arr2 (ℚ × ℚ))
    (corrcoef : Arr2 ℚ) (nlooks : ℚ) (pwr : Option (Arr2 ℚ))
    (mask : Option (Arr2 Bool)) (unwest : Option (Arr2 ℚ)) :
    Except String (Arr2 ℚ × Arr2 ℕ) :=
  match snaphu_mask_raster pwr mask with
  | some (.error e) => .error e
  | some (.ok mr) =>
    let f := solver u (igram.length, igram.width) igram corrcoef nlooks pwr (some mr) unwest
    .ok (⟨igram.length, igram.width, f.1⟩, ⟨igram.length, igram.width, f.2⟩)
  | none =>
    let f := solver u (igram.length, igram.width) igram corrcoef nlooks pwr none unwest
    .ok (⟨igram.length, igram.width, f.1⟩, ⟨igram.length, igram.width, f.2⟩)

/-!
## TileUnwrapper

Modelled from the spec (section 4.2): `tophu/multiscale.py` is absent from the
sources.  The pluggable unwrapping backend and the downsampling/upsampling
filters are external collaborators (spec sections 1 and 6) and are therefore
parameters of the model.
-/

/-- An unwrapping backend (the `UnwrapCallback` capability): given the tile
size, interferogram, correlation, effective looks, optional power, optional
mask and optional initial unwrapped-phase estimate, it returns the unwrapped
phase (in cycles) and the connected-component labels (0 = invalid). -/
abbrev Backend : Type :=
  ℕ × ℕ → CArr → RArr → ℚ → Option RArr → Option BArr → Option RArr → RArr × LArr

/-- External downsampling/upsampling filters (out of scope of the core): each
takes the input size, the per-axis factor, and the data field. -/
structure Resampler where
  decimateC : ℕ × ℕ → ℕ × ℕ → CArr → CArr
  decimateR : ℕ × ℕ → ℕ × ℕ → RArr → RArr
  decimateB : ℕ × ℕ → ℕ × ℕ → BArr → BArr
  upsampleR : ℕ × ℕ → ℕ × ℕ → RArr → RArr

/-- A record of one invocation of the unwrapping backend: the raster size it
was invoked at, the effective number of looks passed, and the initial
unwrapped-phase estimate passed (`none` when no estimate was given). -/
structure BackendCall where
  size : ℕ × ℕ
  nlooks : ℚ
  unwest : Option RArr

/-- The reduced-resolution size of a tile of size `size` decimated by the
per-axis factor `df`. -/
def lores_size (size df : ℕ × ℕ) : ℕ × ℕ :=
  (ceil_div size.1 df.1, ceil_div size.2 df.2)

/-- The coarse (reduced-resolution) unwrap of a tile: the backend applied to
the decimated inputs, with the effective number of looks scaled by the product
of the downsample factors and with no initial estimate. -/
def coarse_unwrap (B : Backend) (R : Resampler) (size : ℕ × ℕ) (igram : CArr)
    (corr : RArr) (nlooks : ℚ) (pwr : Option RArr) (mask : Option BArr)
    (df : ℕ × ℕ) : RArr × LArr :=
  B (lores_size size df) (R.decimateC size df igram) (R.decimateR size df corr)
    (nlooks * df.1 * df.2) (pwr.map (R.decimateR size df))
    (mask.map (R.decimateB size df)) none

/-- Modelled from the spec: the per-tile unwrapper of `tophu/multiscale.py`
(absent from the sources), spec section 4.2.  When the downsample factor is
(1,1) the backend is invoked once at full resolution with no initial estimate;
otherwise the backend is invoked at reduced resolution on the decimated inputs
with scaled looks and no initial estimate, the coarse unwrapped phase is
upsampled, and the backend is invoked a second time at full resolution with
the upsampled coarse phase as the initial estimate (`unwest`).  Beside the
full-resolution result, the model returns the list of backend invocations in
order, each with the arguments the claim speaks about. -/
def tile_unwrap (B : Backend) (R : Resampler) (size : ℕ × ℕ) (igram : CArr)
    (corr : RArr) (nlooks : ℚ) (pwr : Option RArr) (mask : Option BArr)
    (df : ℕ × ℕ) : (RArr × LArr) × List BackendCall :=
  if df = (1, 1) then
    (B size igram corr nlooks pwr mask none, [⟨size, nlooks, none⟩])
  else
    let coarse := coarse_unwrap B R size igram corr nlooks pwr mask df
    let est := R.upsampleR (lores_size size df) df coarse.1
    (B size igram corr nlooks pwr mask (some est),
      [⟨lores_size size df, nlooks * df.1 * df.2, none⟩, ⟨size, nlooks, some est⟩])

/-!
## Stitching

Modelled from the spec (section 4.3 step 4): tiles are processed in a fixed
row-major order; the first writer of a pixel wins; for a tile overlapping
already-written valid cells, the offset added to the tile phase is the mean
difference between the global and tile phase fields over valid (nonzero-label)
overlapping pixels, rounded to the nearest integer number of cycles (i.e. to
the nearest multiple of 2*pi radians); a tile with no such overlap gets
offset 0.  The circular mean of the pointwise phase differences is modelled by
their arithmetic mean, which agrees with it in the regime the spec describes
(nearly constant differences); only the integrality of the rounded offset
matters for the claims below.
-/

/-- A rectangular tile extent: the half-open pixel box
`[r0, r1) x [c0, c1)` in global coordinates. -/
structure Extent where
  r0 : ℕ
  c0 : ℕ
  r1 : ℕ
  c1 : ℕ

/-- Membership of a pixel in an extent. -/
def Extent.memb (e : Extent) (p : Pix) : Bool :=
  decide (e.r0 ≤ p.1) && decide (p.1 < e.r1) && decide (e.c0 ≤ p.2) && decide (p.2 < e.c1)

/-- Row-major enumeration of the pixels of an extent. -/
def Extent.pixels (e : Extent) : List Pix :=
  (List.range (e.r1 - e.r0)).flatMap
    (fun i => (List.range (e.c1 - e.c0)).map (fun j => (e.r0 + i, e.c0 + j)))

/-- One tile's unwrap result, in global pixel coordinates. -/
structure TRes where
  phase : RArr
  label : LArr

/-- The global output state during stitching: the phase and label rasters and
the set of cells already written by some earlier tile. -/
structure GState where
  phase : RArr
  label : LArr
  written : Pix → Bool

/-- The pixels of extent `e` at which the tile result and the already-written
global output overlap validly: already written, nonzero global label, and
nonzero tile label. -/
def valid_overlap (g : GState) (e : Extent) (t : TRes) : List Pix :=
  e.pixels.filter (fun p => g.written p && (g.label p != 0) && (t.label p != 0))

/-- The phase offset (in integer cycles) applied to a tile before writing: the
mean of (global phase - tile phase) over the valid overlapping pixels, rounded
to the nearest integer; 0 when there is no valid overlap. -/
def tile_offset (g : GState) (e : Extent) (t : TRes) : ℤ :=
  let ps := valid_overlap g e t
  if ps.isEmpty then 0
  else round ((ps.map (fun p => g.phase p - t.phase p)).sum / (ps.length : ℚ))

/-- Write one tile into the global output: add the rounded offset to the tile
phase and copy phase and labels into every not-yet-written cell of the extent
(first writer wins); mark the extent as written. -/
def write_tile (g : GState) (e : Extent) (t : TRes) : GState :=
  let k := tile_offset g e t
  ⟨fun p => if e.memb p && !g.written p then t.phase p + (k : ℚ) else g.phase p,
   fun p => if e.memb p && !g.written p then t.label p else g.label p,
   fun p => g.written p || e.memb p⟩

/-- One stitching step over a (tile extent, tile result) pair. -/
def stitch_step (g : GState) (et : Extent × TRes) : GState :=
  write_tile g et.1 et.2

/-- Stitch a list of tile results, in order, into an initial global state. -/
def stitch (tiles : List (Extent × TRes)) (g0 : GState) : GState :=
  tiles.foldl stitch_step g0

/-- The global state after the first `i` tiles have been stitched. -/
def stitch_upto (tiles : List (Extent × TRes)) (g0 : GState) (i : ℕ) : GState :=
  stitch (tiles.take i) g0

/-- The offset (in integer cycles) that the sequential stitch applies to the
`i`-th tile: the tile offset computed against the state after the first `i`
tiles (0 for an out-of-range index). -/
def nth_offset (tiles : List (Extent × TRes)) (g0 : GState) (i : ℕ) : ℤ :=
  match tiles.drop i with
  | [] => 0
  | et :: _ => tile_offset (stitch_upto tiles g0 i) et.1 et.2

/-!
## The orchestrator: `multiscale_unwrap`

Modelled from the spec (section 4.3): `tophu/multiscale.py` is absent from the
sources; the exact error messages are the ones matched by
`test/test_multiscale.py` (class `TestMultiScaleUnwrap`).
-/

/-- A caller-supplied N-dimensional array: a shape (one length per axis) and a
data field.  Only 2-D data is ever touched; arrays of other dimensionality are
rejected by validation before their data is read. -/
structure Grid (α : Type) where
  shape : List ℕ
  data : Pix → α

/-- The first two axis lengths of a shape list. -/
def dim2 (s : List ℕ) : ℕ × ℕ :=
  (s.headD 0, (s.drop 1).headD 0)

/-- Modelled from the spec: the eager precondition validation at the top of
`multiscale_unwrap` (spec sections 4.3 and 7), with the error messages matched
by `test/test_multiscale.py`.  Returns `none` when all preconditions hold and
the first applicable error message otherwise. -/
def ms_validate (unwrapped : Grid ℚ) (conncomp : Grid ℕ) (igram : Grid (ℚ × ℚ))
    (coherence : Grid ℚ) (nlooks : ℚ) (df : ℕ × ℕ) (ntiles : ℕ × ℕ)
    (overhang : ℚ) : Option String :=
  if igram.shape ≠ unwrapped.shape then
    some "shape mismatch: igram and unwrapped must have the same shape"
  else if unwrapped.shape ≠ conncomp.shape then
    some "shape mismatch: unwrapped and conncomp must have the same shape"
  else if igram.shape ≠ coherence.shape then
    some "shape mismatch: igram and coherence must have the same shape"
  else if igram.shape.length ≠ 2 then
    some "input array must be 2-dimensional"
  else if nlooks < 1 then
    some "effective number of looks must be >= 1"
  else if df.1 < 1 ∨ df.2 < 1 then
    some "downsample factor must be >= 1"
  else if ntiles.1 < 1 ∨ ntiles.2 < 1 then
    some "number of tiles must be >= 1"
  else if overhang < 0 ∨ overhang > 1 then
    some "overhang must be between 0 and 1"
  else
    none

/-- The overlapping extent of the tile with index `(ti, tj)` (spec section 4.3
step 2): the non-overlapping partition extent, expanded on each side by the
overhang fraction of the tile length (rounded down), clipped to the full
array bounds `(n1, n2)`. -/
def tile_extent (n1 n2 td1 td2 : ℕ) (overhang : ℚ) (ti tj : ℕ) : Extent :=
  let h1 := (overhang * (td1 : ℚ)).floor.toNat
  let h2 := (overhang * (td2 : ℚ)).floor.toNat
  ⟨ti * td1 - h1, tj * td2 - h2,
   min ((ti + 1) * td1 + h1) n1, min ((tj + 1) * td2 + h2) n2⟩

/-- Restriction of a global data field to an extent, in tile-local
coordinates. -/
def restrict {α : Type} (e : Extent) (f : Pix → α) : Pix → α :=
  fun p => f (e.r0 + p.1, e.c0 + p.2)

/-- The unwrap result of one tile, translated back to global coordinates. -/
def tile_result (B : Backend) (R : Resampler) (igram : CArr) (coherence : RArr)
    (nlooks : ℚ) (df : ℕ × ℕ) (e : Extent) : TRes :=
  let size := (e.r1 - e.r0, e.c1 - e.c0)
  let r := (tile_unwrap B R size (restrict e igram) (restrict e coherence)
    nlooks none none df).1
  ⟨fun p => r.1 (p.1 - e.r0, p.2 - e.c0), fun p => r.2 (p.1 - e.r0, p.2 - e.c0)⟩

/-- The row-major list of (extent, tile result) pairs of the tile grid. -/
def tile_results (B : Backend) (R : Resampler) (n1 n2 td1 td2 : ℕ)
    (overhang : ℚ) (ntiles : ℕ × ℕ) (igram : CArr) (coherence : RArr)
    (nlooks : ℚ) (df : ℕ × ℕ) : List (Extent × TRes) :=
  (List.range ntiles.1).flatMap (fun ti =>
    (List.range ntiles.2).map (fun tj =>
      let e := tile_extent n1 n2 td1 td2 overhang ti tj
      (e, tile_result B R igram coherence nlooks df e)))

/-- Modelled from the spec: the `multiscale_unwrap` orchestrator of
`tophu/multiscale.py` (absent from the sources), spec section 4.3.  Validate
the preconditions eagerly; on any violation return the error message together
with the caller-supplied output arrays untouched.  Otherwise compute the tile
lengths with `get_tile_dims`, unwrap every tile of the row-major tile grid
with the per-tile unwrapper, and stitch the results in row-major order into
the caller-supplied output arrays (offset-corrected as in `write_tile`),
returning the filled output phase and label fields. -/
def multiscale_unwrap (B : Backend) (R : Resampler) (unwrapped : Grid ℚ)
    (conncomp : Grid ℕ) (igram : Grid (ℚ × ℚ)) (coherence : Grid ℚ)
    (nlooks : ℚ) (df : ℕ × ℕ) (ntiles : ℕ × ℕ) (overhang : ℚ) :
    Option String × RArr × LArr :=
  match ms_validate unwrapped conncomp igram coherence nlooks df ntiles overhang with
  | some e => (some e, unwrapped.data, conncomp.data)
  | none =>
    let n := dim2 igram.shape
    match get_tile_dims [n.1, n.2] [ntiles.1, ntiles.2] none with
    | .error e => (some e, unwrapped.data, conncomp.data)
    | .ok dims =>
      let td := dim2 dims
      let tiles := tile_results B R n.1 n.2 td.1 td.2 overhang ntiles
        igram.data coherence.data nlooks df
      let g := stitch tiles ⟨unwrapped.data, conncomp.data, fun _ => false⟩
      (none, g.phase, g.label)

/-!
## Helper lemmas
-/

theorem ceil_div_one (a : ℕ) : ceil_div a 1 = a := by
  simp [ceil_div]

theorem le_mul_ceil_div (a b : ℕ) (hb : 1 ≤ b) : a ≤ b * ceil_div a b := by
  have h2 := Nat.div_add_mod (a + b - 1) b
  have h3 : (a + b - 1) % b < b := Nat.mod_lt _ hb
  unfold ceil_div
  omega

theorem ceil_div_le (a b m : ℕ) (hb : 1 ≤ b) (h : a ≤ b * m) : ceil_div a b ≤ m := by
  unfold ceil_div
  rw [Nat.div_le_iff_le_mul_add_pred hb]
  omega

theorem dvd_snap_up (n m : ℕ) : m ∣ snap_up n m :=
  Dvd.intro _ rfl

theorem le_snap_up (n m : ℕ) (hm : 1 ≤ m) : n ≤ snap_up n m :=
  le_mul_ceil_div n m hm

theorem snap_up_le (n m k : ℕ) (hm : 1 ≤ m) (hd : m ∣ k) (hk : n ≤ k) :
    snap_up n m ≤ k := by
  obtain ⟨j, rfl⟩ := hd
  exact Nat.mul_le_mul_left m (ceil_div_le n m j hm hk)

theorem zipWith_getD (f : ℕ → ℕ → ℕ) (as bs : List ℕ) (i : ℕ)
    (h1 : i < as.length) (h2 : i < bs.length) :
    (List.zipWith f as bs).getD i 0 = f (as.getD i 0) (bs.getD i 0) := by
  induction as generalizing bs i with
  | nil => simp at h1
  | cons a as ih =>
    cases bs with
    | nil => simp at h2
    | cons b bs =>
      cases i with
      | zero => simp
      | succ i =>
        simp only [List.zipWith_cons_cons, List.getD_cons_succ]
        exact ih bs i (by simpa using h1) (by simpa using h2)

theorem getD_one_le (l : List ℕ) (i : ℕ) (hi : i < l.length)
    (h : ∀ x ∈ l, 1 ≤ x) : 1 ≤ l.getD i 0 := by
  rw [List.getD_eq_getElem l 0 hi]
  exact h _ (List.getElem_mem hi)

/-!
## Claim theorems
-/

/-- C2: for every shape, ntiles, and optional snap_to sequences of equal
length with all entries at least 1, `get_tile_dims` returns a tuple whose
`i`-th entry equals `ceil(shape[i] / ntiles[i])` — the least `m` with
`shape[i] <= ntiles[i] * m` — rounded up to the next multiple of `snap_to[i]`
(the least such multiple) when `snap_to` is given; in particular
`get_tile_dims((100,101),(4,3)) = (25,34)` and
`get_tile_dims((30,40,50),(3,4,5),snap_to=(5,6,7)) = (10,12,14)`. -/
theorem get_tile_dims_spec (shape ntiles : List ℕ)
    (hlen : shape.length = ntiles.length)
    (hs : ∀ x ∈ shape, 1 ≤ x) (hn : ∀ x ∈ ntiles, 1 ≤ x) :
    (get_tile_dims shape ntiles none = .ok (List.zipWith ceil_div shape ntiles)
      ∧ ∀ i, i < shape.length →
          (List.zipWith ceil_div shape ntiles).getD i 0
              = ceil_div (shape.getD i 0) (ntiles.getD i 0)
            ∧ shape.getD i 0
              ≤ ntiles.getD i 0 * (List.zipWith ceil_div shape ntiles).getD i 0
            ∧ ∀ m, shape.getD i 0 ≤ ntiles.getD i 0 * m →
                (List.zipWith ceil_div shape ntiles).getD i 0 ≤ m)
    ∧ (∀ st : List ℕ, st.length = shape.length → (∀ x ∈ st, 1 ≤ x) →
        get_tile_dims shape ntiles (some st)
            = .ok (List.zipWith snap_up (List.zipWith ceil_div shape ntiles) st)
          ∧ ∀ i, i < shape.length →
              (List.zipWith snap_up (List.zipWith ceil_div shape ntiles) st).getD i 0
                  = snap_up (ceil_div (shape.getD i 0) (ntiles.getD i 0)) (st.getD i 0)
                ∧ st.getD i 0 ∣
                    (List.zipWith snap_up (List.zipWith ceil_div shape ntiles) st).getD i 0
                ∧ ceil_div (shape.getD i 0) (ntiles.getD i 0)
                  ≤ (List.zipWith snap_up (List.zipWith ceil_div shape ntiles) st).getD i 0
                ∧ ∀ k, st.getD i 0 ∣ k →
                    ceil_div (shape.getD i 0) (ntiles.getD i 0) ≤ k →
                    (List.zipWith snap_up (List.zipWith ceil_div shape ntiles) st).getD i 0 ≤ k)
    ∧ get_tile_dims [100, 101] [4, 3] none = .ok [25, 34]
    ∧ get_tile_dims [30, 40, 50] [3, 4, 5] (some [5, 6, 7]) = .ok [10, 12, 14] := by
  have hs0 : ¬ (0 ∈ shape) := fun h => by have := hs 0 h; omega
  have hn0 : ¬ (0 ∈ ntiles) := fun h => by have := hn 0 h; omega
  refine ⟨⟨?_, ?_⟩, ?_, rfl, rfl⟩
  · simp [get_tile_dims, hlen, hs0, hn0]
  · intro i hi
    have hzi : (List.zipWith ceil_div shape ntiles).getD i 0
        = ceil_div (shape.getD i 0) (ntiles.getD i 0) :=
      zipWith_getD _ _ _ _ hi (hlen ▸ hi)
    have hni : 1 ≤ ntiles.getD i 0 := getD_one_le _ _ (hlen ▸ hi) hn
    refine ⟨hzi, ?_, ?_⟩
    · rw [hzi]; exact le_mul_ceil_div _ _ hni
    · intro m hm; rw [hzi]; exact ceil_div_le _ _ _ hni hm
  · intro st hstl hst
    have hst0 : ¬ (0 ∈ st) := fun h => by have := hst 0 h; omega
    have hzl : (List.zipWith ceil_div shape ntiles).length = shape.length := by
      simp [List.length_zipWith, hlen]
    refine ⟨by simp [get_tile_dims, hlen, hstl, hs0, hn0, hst0], ?_⟩
    intro i hi
    have hsi : (List.zipWith snap_up (List.zipWith ceil_div shape ntiles) st).getD i 0
        = snap_up ((List.zipWith ceil_div shape ntiles).getD i 0) (st.getD i 0) :=
      zipWith_getD _ _ _ _ (hzl ▸ hi) (hstl ▸ hi)
    have hzi : (List.zipWith ceil_div shape ntiles).getD i 0
        = ceil_div (shape.getD i 0) (ntiles.getD i 0) :=
      zipWith_getD _ _ _ _ hi (hlen ▸ hi)
    have hsti : 1 ≤ st.getD i 0 := getD_one_le _ _ (hstl ▸ hi) hst
    rw [hsi, hzi]
    exact ⟨rfl, dvd_snap_up _ _, le_snap_up _ _ hsti, fun k hdk hk =>
      snap_up_le _ _ _ hsti hdk hk⟩

/-- Witness for C2 at shape (100, 101), ntiles (4, 3). -/
theorem get_tile_dims_spec_inst :
    get_tile_dims [100, 101] [4, 3] none = .ok (List.zipWith ceil_div [100, 101] [4, 3])
    ∧ get_tile_dims [100, 101] [4, 3] none = .ok [25, 34] := by
  have h := get_tile_dims_spec [100, 101] [4, 3] (by decide) (by decide) (by decide)
  exact ⟨h.1.1, h.2.2.1⟩

/-- C6: `get_tile_dims` fails with a size-mismatch error whenever `shape`,
`ntiles`, or (if given) `snap_to` have differing lengths; with an
invalid-shape error whenever some shape entry is below 1 (that is, a zero
entry); with an invalid-tile-count error whenever some ntiles entry is zero;
with an invalid-snap error whenever some snap_to entry is zero; and succeeds
otherwise.  Later checks are stated under the earlier checks passing,
matching the order in which the conditions are tested. -/
theorem get_tile_dims_errors (shape ntiles st : List ℕ) :
    (∀ snap, shape.length ≠ ntiles.length →
        get_tile_dims shape ntiles snap
          = .error "size mismatch: shape and ntiles must have same length")
    ∧ (shape.length = ntiles.length → st.length ≠ shape.length →
        get_tile_dims shape ntiles (some st)
          = .error "size mismatch: shape and snap_to must have same length")
    ∧ (shape.length = ntiles.length → 0 ∈ shape →
        get_tile_dims shape ntiles none
          = .error "array axis lengths must be >= 1")
    ∧ (shape.length = ntiles.length → st.length = shape.length → 0 ∈ shape →
        get_tile_dims shape ntiles (some st)
          = .error "array axis lengths must be >= 1")
    ∧ (shape.length = ntiles.length → 0 ∉ shape → 0 ∈ ntiles →
        get_tile_dims shape ntiles none
          = .error "number of tiles must be >= 1")
    ∧ (shape.length = ntiles.length → st.length = shape.length → 0 ∉ shape →
        0 ∈ ntiles →
        get_tile_dims shape ntiles (some st)
          = .error "number of tiles must be >= 1")
    ∧ (shape.length = ntiles.length → st.length = shape.length → 0 ∉ shape →
        0 ∉ ntiles → 0 ∈ st →
        get_tile_dims shape ntiles (some st)
          = .error "snap_to lengths must be >= 1")
    ∧ (shape.length = ntiles.length → 0 ∉ shape → 0 ∉ ntiles →
        ∃ dims, get_tile_dims shape ntiles none = .ok dims)
    ∧ (shape.length = ntiles.length → st.length = shape.length → 0 ∉ shape →
        0 ∉ ntiles → 0 ∉ st →
        ∃ dims, get_tile_dims shape ntiles (some st) = .ok dims) := by
  refine ⟨fun snap h => ?_, fun h1 h2 => ?_, fun h1 h2 => ?_, fun h1 h2 h3 => ?_,
    fun h1 h2 h3 => ?_, fun h1 h2 h3 h4 => ?_, fun h1 h2 h3 h4 h5 => ?_,
    fun h1 h2 h3 => ?_, fun h1 h2 h3 h4 h5 => ?_⟩
  · cases snap <;> (simp only [get_tile_dims]; rw [if_pos h])
  · simp only [get_tile_dims]
    rw [if_neg (by omega), if_pos h2]
  · simp only [get_tile_dims]
    rw [if_neg (by omega), if_pos h2]
  · simp only [get_tile_dims]
    rw [if_neg (by omega), if_neg (by omega), if_pos h3]
  · simp only [get_tile_dims]
    rw [if_neg (by omega), if_neg h2, if_pos h3]
  · simp only [get_tile_dims]
    rw [if_neg (by omega), if_neg (by omega), if_neg h3, if_pos h4]
  · simp only [get_tile_dims]
    rw [if_neg (by omega), if_neg (by omega), if_neg h3, if_neg h4, if_pos h5]
  · exact ⟨_, by simp only [get_tile_dims]; rw [if_neg (by omega), if_neg h2, if_neg h3]⟩
  · exact ⟨_, by
      simp only [get_tile_dims]
      rw [if_neg (by omega), if_neg (by omega), if_neg h3, if_neg h4, if_neg h5]⟩

/-- Witness for C6 at the inputs of the `TestGetTileDims` error tests. -/
theorem get_tile_dims_errors_inst :
    get_tile_dims [3, 4, 5] [1, 2] none
        = .error "size mismatch: shape and ntiles must have same length"
    ∧ get_tile_dims [3, 4, 5] [1, 2, 1] (some [4, 4])
        = .error "size mismatch: shape and snap_to must have same length"
    ∧ get_tile_dims [3, 0, 5] [1, 2, 1] none
        = .error "array axis lengths must be >= 1"
    ∧ get_tile_dims [3, 4, 5] [1, 0, 1] none
        = .error "number of tiles must be >= 1"
    ∧ get_tile_dims [3, 4, 5] [1, 2, 1] (some [4, 0, 5])
        = .error "snap_to lengths must be >= 1" := by
  refine ⟨(get_tile_dims_errors [3, 4, 5] [1, 2] []).1 none (by decide),
    (get_tile_dims_errors [3, 4, 5] [1, 2, 1] [4, 4]).2.1 (by decide) (by decide),
    (get_tile_dims_errors [3, 0, 5] [1, 2, 1] []).2.2.1 (by decide) (by decide),
    (get_tile_dims_errors [3, 4, 5] [1, 0, 1] []).2.2.2.2.1 (by decide) (by decide)
      (by decide),
    (get_tile_dims_errors [3, 4, 5] [1, 2, 1] [4, 0, 5]).2.2.2.2.2.2.1 (by decide)
      (by decide) (by decide) (by decide) (by decide)⟩

/-- C10: constructing a `SnaphuUnwrap` fails with an error naming the
offending value whenever `cost` is not one of the allowed cost modes or
`init_method` is not one of the allowed initialization methods; construction
with any combination of the allowed values succeeds. -/
theorem snaphu_unwrap_make_validation (cost im : String) :
    (cost ∉ snaphu_cost_modes →
        snaphu_unwrap_make cost im = .error ("unexpected cost mode " ++ cost))
    ∧ (cost ∈ snaphu_cost_modes → im ∉ snaphu_init_methods →
        snaphu_unwrap_make cost im
          = .error ("unexpected initialization method " ++ im))
    ∧ (cost ∈ snaphu_cost_modes → im ∈ snaphu_init_methods →
        snaphu_unwrap_make cost im = .ok ⟨cost, im⟩) := by
  refine ⟨fun h => ?_, fun h1 h2 => ?_, fun h1 h2 => ?_⟩
  · simp only [snaphu_unwrap_make]
    rw [if_pos h]
  · simp only [snaphu_unwrap_make]
    rw [if_neg (by simpa using h1), if_pos h2]
  · simp only [snaphu_unwrap_make]
    rw [if_neg (by simpa using h1), if_neg (by simpa using h2)]

/-- Witness for C10: all four allowed cost modes succeed with the allowed
initialization methods, and the two invalid values of the tests fail with the
message naming them. -/
theorem snaphu_unwrap_make_validation_inst :
    snaphu_unwrap_make "smooth" "mcf" = .ok ⟨"smooth", "mcf"⟩
    ∧ snaphu_unwrap_make "p-norm" "mst" = .ok ⟨"p-norm", "mst"⟩
    ∧ snaphu_unwrap_make "bogus" "mcf" = .error ("unexpected cost mode " ++ "bogus")
    ∧ snaphu_unwrap_make "topo" "bogus"
        = .error ("unexpected initialization method " ++ "bogus") := by
  refine ⟨(snaphu_unwrap_make_validation "smooth" "mcf").2.2 (by decide) (by decide),
    (snaphu_unwrap_make_validation "p-norm" "mst").2.2 (by decide) (by decide),
    (snaphu_unwrap_make_validation "bogus" "mcf").1 (by decide),
    (snaphu_unwrap_make_validation "topo" "bogus").2.1 (by decide) (by decide)⟩

/-- C8: whenever `SnaphuUnwrap.__call__` returns, it returns a pair of a
real-valued unwrapped-phase array and an unsigned-integer connected-component
label array (0 = unlabeled/invalid, by the types of the embedding), both with
exactly the 2-D shape of the input interferogram; and with no mask supplied
(the default) the call always returns. -/
theorem snaphu_call_output_shapes (solver : SnaphuSolver) (u : SnaphuUnwrapM)
    (igram : Arr2 (ℚ × ℚ)) (corrcoef : Arr2 ℚ) (nlooks : ℚ)
    (pwr : Option (Arr2 ℚ)) (mask : Option (Arr2 Bool)) (unwest : Option (Arr2 ℚ)) :
    (∀ res, snaphu_call solver u igram corrcoef nlooks pwr mask unwest = .ok res →
        res.1.length = igram.length ∧ res.1.width = igram.width
          ∧ res.2.length = igram.length ∧ res.2.width = igram.width)
    ∧ (mask = none →
        ∃ res, snaphu_call solver u igram corrcoef nlooks pwr mask unwest = .ok res) := by
  constructor
  · intro res h
    cases mask with
    | none =>
      simp only [snaphu_call, snaphu_mask_raster, Except.ok.injEq] at h
      rw [← h]
      exact ⟨rfl, rfl, rfl, rfl⟩
    | some m =>
      cases pwr with
      | none => simp [snaphu_call, snaphu_mask_raster] at h
      | some p =>
        simp only [snaphu_call, snaphu_mask_raster, Except.ok.injEq] at h
        rw [← h]
        exact ⟨rfl, rfl, rfl, rfl⟩
  · rintro rfl
    exact ⟨_, rfl⟩

/-- Fixed inputs for the `SnaphuUnwrap.__call__` witnesses. -/
def igram_ex : Arr2 (ℚ × ℚ) := ⟨2, 3, fun _ => (1, 0)⟩

/-- Fixed correlation input for the `SnaphuUnwrap.__call__` witnesses. -/
def corr_ex : Arr2 ℚ := ⟨2, 3, fun _ => 1⟩

/-- A concrete solver model used by the witnesses. -/
def solver_ex : SnaphuSolver :=
  fun _ _ _ _ nl _ _ _ => (fun _ => nl, fun _ => 1)

/-- Witness for C8 at a concrete 2-by-3 interferogram with no mask. -/
theorem snaphu_call_output_shapes_inst :
    ∃ res, snaphu_call solver_ex ⟨"smooth", "mcf"⟩ igram_ex corr_ex 1 none none none
        = .ok res
      ∧ res.1.length = igram_ex.length ∧ res.1.width = igram_ex.width
      ∧ res.2.length = igram_ex.length ∧ res.2.width = igram_ex.width := by
  obtain ⟨res, hres⟩ :=
    (snaphu_call_output_shapes solver_ex ⟨"smooth", "mcf"⟩ igram_ex corr_ex 1
      none none none).2 rfl
  exact ⟨res, hres,
    (snaphu_call_output_shapes solver_ex ⟨"smooth", "mcf"⟩ igram_ex corr_ex 1
      none none none).1 res hres⟩

/-- The power array of the C7 failing input: a 1-by-1 power raster holding
the value 7. -/
def pwr_ex : Arr2 ℚ := ⟨1, 1, fun _ => 7⟩

/-- The mask argument of the C7 failing input: a 1-by-1 all-valid mask. -/
def mask_ex : Arr2 Bool := ⟨1, 1, fun _ => true⟩

/-- The value at pixel (0,0) of a successfully converted mask raster. -/
def mask_val00 : Option (Except String (Arr2 ℕ)) → Option ℕ
  | some (.ok r) => some (r.data (0, 0))
  | _ => none

/-- C7 is violated by the code: unwrap.py line 145 computes the mask raster
data as `np.asanyarray(pwr, dtype=np.uint8)` — from the power argument, not
from the caller's boolean mask.  With a power raster holding 7 and an
all-valid mask, the raster forwarded to SNAPHU holds 7 where the contract
(and the docstring) promise the uint8 conversion of the mask, which holds 1;
and with a mask but no power raster, the call path raises instead of
forwarding the mask.  The last conjunct evaluates `SnaphuUnwrap.__call__`
itself at that failing input. -/
theorem snaphu_mask_raster_from_pwr :
    mask_val00 (snaphu_mask_raster (some pwr_ex) (some mask_ex)) = some 7
    ∧ (spec_mask_raster (some mask_ex)).map (fun r => r.data (0, 0)) = some 1
    ∧ mask_val00 (snaphu_mask_raster (some pwr_ex) (some mask_ex))
        ≠ (spec_mask_raster (some mask_ex)).map (fun r => r.data (0, 0))
    ∧ (∃ e, snaphu_mask_raster none (some mask_ex) = some (.error e))
    ∧ (∃ e, snaphu_call solver_ex ⟨"smooth", "mcf"⟩ igram_ex corr_ex 1 none
        (some mask_ex) none = .error e) := by
  refine ⟨?_, rfl, ?_, ⟨_, rfl⟩, ⟨_, rfl⟩⟩
  · show some (rat_to_uint8 7) = some 7
    decide
  · show some (rat_to_uint8 7) ≠ some 1
    decide

/-- C5: for every tile, the per-tile unwrapper invokes the backend exactly
once, at full resolution with no initial estimate, when the downsample factor
is (1,1); otherwise exactly twice: first at reduced resolution with no initial
estimate and the effective looks scaled by the product of the downsample
factors, then at full resolution with the upsampled coarse unwrapped phase as
the initial estimate; the returned result is the corresponding backend
result. -/
theorem tile_unwrap_backend_calls (B : Backend) (R : Resampler) (size : ℕ × ℕ)
    (igram : CArr) (corr : RArr) (nlooks : ℚ) (pwr : Option RArr)
    (mask : Option BArr) (df : ℕ × ℕ) :
    (df = (1, 1) →
        (tile_unwrap B R size igram corr nlooks pwr mask df).2
            = [⟨size, nlooks, none⟩]
          ∧ (tile_unwrap B R size igram corr nlooks pwr mask df).1
            = B size igram corr nlooks pwr mask none)
    ∧ (df ≠ (1, 1) →
        (tile_unwrap B R size igram corr nlooks pwr mask df).2
            = [⟨lores_size size df, nlooks * df.1 * df.2, none⟩,
               ⟨size, nlooks, some (R.upsampleR (lores_size size df) df
                  (coarse_unwrap B R size igram corr nlooks pwr mask df).1)⟩]
          ∧ (tile_unwrap B R size igram corr nlooks pwr mask df).1
            = B size igram corr nlooks pwr mask
                (some (R.upsampleR (lores_size size df) df
                  (coarse_unwrap B R size igram corr nlooks pwr mask df).1))) := by
  constructor
  · intro h
    simp only [tile_unwrap]
    rw [if_pos h]
    exact ⟨rfl, rfl⟩
  · intro h
    simp only [tile_unwrap]
    rw [if_neg h]
    exact ⟨rfl, rfl⟩

/-- A concrete backend used by the multiscale witnesses: the phase is the
effective looks plus the initial estimate at the origin, every label is 1. -/
def backend_ex : Backend :=
  fun _ _ _ nl _ _ uw => (fun _ => nl + (uw.elim 0 (fun f => f (0, 0))), fun _ => 1)

/-- A concrete trivial resampler used by the multiscale witnesses. -/
def resampler_ex : Resampler :=
  ⟨fun _ _ f => f, fun _ _ f => f, fun _ _ f => f, fun _ _ f => f⟩

/-- A concrete interferogram field used by the multiscale witnesses. -/
def igram_field_ex : CArr := fun _ => (1, 0)

/-- A concrete correlation field used by the multiscale witnesses. -/
def corr_field_ex : RArr := fun _ => 1

/-- Witness for C5 at a 4-by-4 tile: one full-resolution call for downsample
factor (1,1) and two calls (coarse with looks scaled by 4, then full
resolution with an estimate) for downsample factor (2,2). -/
theorem tile_unwrap_backend_calls_inst :
    (tile_unwrap backend_ex resampler_ex (4, 4) igram_field_ex corr_field_ex 3
        none none (1, 1)).2 = [⟨(4, 4), 3, none⟩]
    ∧ ∃ est, (tile_unwrap backend_ex resampler_ex (4, 4) igram_field_ex
        corr_field_ex 3 none none (2, 2)).2
          = [⟨(2, 2), 12, none⟩, ⟨(4, 4), 3, some est⟩] := by
  constructor
  · exact ((tile_unwrap_backend_calls backend_ex resampler_ex (4, 4) igram_field_ex
      corr_field_ex 3 none none (1, 1)).1 rfl).1
  · refine ⟨resampler_ex.upsampleR (lores_size (4, 4) (2, 2)) (2, 2)
      (coarse_unwrap backend_ex resampler_ex (4, 4) igram_field_ex corr_field_ex 3
        none none (2, 2)).1, ?_⟩
    have h := ((tile_unwrap_backend_calls backend_ex resampler_ex (4, 4)
      igram_field_ex corr_field_ex 3 none none (2, 2)).2 (by decide)).1
    rw [h]
    norm_num [lores_size, ceil_div]

/-- C9: the orchestrator is a deterministic function of its inputs — two calls
with the same inputs and extensionally equal (deterministic) backends produce
identical outputs. -/
theorem multiscale_unwrap_deterministic (B1 B2 : Backend) (R : Resampler)
    (unwrapped : Grid ℚ) (conncomp : Grid ℕ) (igram : Grid (ℚ × ℚ))
    (coherence : Grid ℚ) (nlooks : ℚ) (df ntiles : ℕ × ℕ) (overhang : ℚ)
    (h : ∀ s ig cr nl pwr mask uw, B1 s ig cr nl pwr mask uw = B2 s ig cr nl pwr mask uw) :
    multiscale_unwrap B1 R unwrapped conncomp igram coherence nlooks df ntiles overhang
      = multiscale_unwrap B2 R unwrapped conncomp igram coherence nlooks df ntiles
          overhang := by
  have hb : B1 = B2 := by
    funext s ig cr nl pwr mask uw
    exact h s ig cr nl pwr mask uw
  rw [hb]

/-- A concrete 2-by-2 phase output grid for the C9 witness. -/
def grid_unw_ex : Grid ℚ := ⟨[2, 2], fun _ => 0⟩

/-- A concrete 2-by-2 label output grid for the C9 witness. -/
def grid_cc_ex : Grid ℕ := ⟨[2, 2], fun _ => 0⟩

/-- A concrete 2-by-2 interferogram grid for the C9 witness. -/
def grid_igram_ex : Grid (ℚ × ℚ) := ⟨[2, 2], igram_field_ex⟩

/-- A concrete 2-by-2 coherence grid for the C9 witness. -/
def grid_coh_ex : Grid ℚ := ⟨[2, 2], corr_field_ex⟩

/-- Witness for C9: two calls with the same concrete inputs and the same
backend agree. -/
theorem multiscale_unwrap_deterministic_inst :
    multiscale_unwrap backend_ex resampler_ex grid_unw_ex grid_cc_ex grid_igram_ex
        grid_coh_ex 1 (1, 1) (2, 2) (1 / 2)
      = multiscale_unwrap backend_ex resampler_ex grid_unw_ex grid_cc_ex
          grid_igram_ex grid_coh_ex 1 (1, 1) (2, 2) (1 / 2) :=
  multiscale_unwrap_deterministic backend_ex backend_ex resampler_ex grid_unw_ex
    grid_cc_ex grid_igram_ex grid_coh_ex 1 (1, 1) (2, 2) (1 / 2)
    (fun _ _ _ _ _ _ _ => rfl)

/-- C3: every precondition violation of `multiscale_unwrap` — shape mismatch
between igram/unwrapped, unwrapped/conncomp or igram/coherence (each with its
own distinct error message), input not 2-dimensional, `nlooks < 1`, a
downsample factor entry below 1, a tile-count entry below 1, or an overhang
outside [0, 1] — makes the call fail with the corresponding descriptive error
before any tile work, returning the caller-supplied output arrays unchanged.
Each violation is stated under the checks before it passing, matching the
order in which the conditions are tested. -/
theorem multiscale_unwrap_validation (B : Backend) (R : Resampler)
    (unwrapped : Grid ℚ) (conncomp : Grid ℕ) (igram : Grid (ℚ × ℚ))
    (coherence : Grid ℚ) (nlooks : ℚ) (df ntiles : ℕ × ℕ) (overhang : ℚ) :
    (igram.shape ≠ unwrapped.shape →
        multiscale_unwrap B R unwrapped conncomp igram coherence nlooks df ntiles
            overhang
          = (some "shape mismatch: igram and unwrapped must have the same shape",
             unwrapped.data, conncomp.data))
    ∧ (igram.shape = unwrapped.shape → unwrapped.shape ≠ conncomp.shape →
        multiscale_unwrap B R unwrapped conncomp igram coherence nlooks df ntiles
            overhang
          = (some "shape mismatch: unwrapped and conncomp must have the same shape",
             unwrapped.data, conncomp.data))
    ∧ (igram.shape = unwrapped.shape → unwrapped.shape = conncomp.shape →
        igram.shape ≠ coherence.shape →
        multiscale_unwrap B R unwrapped conncomp igram coherence nlooks df ntiles
            overhang
          = (some "shape mismatch: igram and coherence must have the same shape",
             unwrapped.data, conncomp.data))
    ∧ (igram.shape = unwrapped.shape → unwrapped.shape = conncomp.shape →
        igram.shape = coherence.shape → igram.shape.length ≠ 2 →
        multiscale_unwrap B R unwrapped conncomp igram coherence nlooks df ntiles
            overhang
          = (some "input array must be 2-dimensional", unwrapped.data, conncomp.data))
    ∧ (igram.shape = unwrapped.shape → unwrapped.shape = conncomp.shape →
        igram.shape = coherence.shape → igram.shape.length = 2 → nlooks < 1 →
        multiscale_unwrap B R unwrapped conncomp igram coherence nlooks df ntiles
            overhang
          = (some "effective number of looks must be >= 1",
             unwrapped.data, conncomp.data))
    ∧ (igram.shape = unwrapped.shape → unwrapped.shape = conncomp.shape →
        igram.shape = coherence.shape → igram.shape.length = 2 → 1 ≤ nlooks →
        df.1 < 1 ∨ df.2 < 1 →
        multiscale_unwrap B R unwrapped conncomp igram coherence nlooks df ntiles
            overhang
          = (some "downsample factor must be >= 1", unwrapped.data, conncomp.data))
    ∧ (igram.shape = unwrapped.shape → unwrapped.shape = conncomp.shape →
        igram.shape = coherence.shape → igram.shape.length = 2 → 1 ≤ nlooks →
        1 ≤ df.1 → 1 ≤ df.2 → ntiles.1 < 1 ∨ ntiles.2 < 1 →
        multiscale_unwrap B R unwrapped conncomp igram coherence nlooks df ntiles
            overhang
          = (some "number of tiles must be >= 1", unwrapped.data, conncomp.data))
    ∧ (igram.shape = unwrapped.shape → unwrapped.shape = conncomp.shape →
        igram.shape = coherence.shape → igram.shape.length = 2 → 1 ≤ nlooks →
        1 ≤ df.1 → 1 ≤ df.2 → 1 ≤ ntiles.1 → 1 ≤ ntiles.2 →
        overhang < 0 ∨ overhang > 1 →
        multiscale_unwrap B R unwrapped conncomp igram coherence nlooks df ntiles
            overhang
          = (some "overhang must be between 0 and 1",
             unwrapped.data, conncomp.data)) := by
  refine ⟨fun h1 => ?_, fun h1 h2 => ?_, fun h1 h2 h3 => ?_, fun h1 h2 h3 h4 => ?_,
    fun h1 h2 h3 h4 h5 => ?_, fun h1 h2 h3 h4 h5 h6 => ?_,
    fun h1 h2 h3 h4 h5 h6 h7 h8 => ?_, fun h1 h2 h3 h4 h5 h6 h7 h8 h9 h10 => ?_⟩
  · have hv : ms_validate unwrapped conncomp igram coherence nlooks df ntiles overhang
        = some "shape mismatch: igram and unwrapped must have the same shape" := by
      simp only [ms_validate]
      rw [if_pos h1]
    simp [multiscale_unwrap, hv]
  · have hv : ms_validate unwrapped conncomp igram coherence nlooks df ntiles overhang
        = some "shape mismatch: unwrapped and conncomp must have the same shape" := by
      simp only [ms_validate]
      rw [if_neg (not_not_intro h1), if_pos h2]
    simp [multiscale_unwrap, hv]
  · have hv : ms_validate unwrapped conncomp igram coherence nlooks df ntiles overhang
        = some "shape mismatch: igram and coherence must have the same shape" := by
      simp only [ms_validate]
      rw [if_neg (not_not_intro h1), if_neg (not_not_intro h2), if_pos h3]
    simp [multiscale_unwrap, hv]
  · have hv : ms_validate unwrapped conncomp igram coherence nlooks df ntiles overhang
        = some "input array must be 2-dimensional" := by
      simp only [ms_validate]
      rw [if_neg (not_not_intro h1), if_neg (not_not_intro h2),
        if_neg (not_not_intro h3), if_pos h4]
    simp [multiscale_unwrap, hv]
  · have hv : ms_validate unwrapped conncomp igram coherence nlooks df ntiles overhang
        = some "effective number of looks must be >= 1" := by
      simp only [ms_validate]
      rw [if_neg (not_not_intro h1), if_neg (not_not_intro h2),
        if_neg (not_not_intro h3), if_neg (not_not_intro h4), if_pos h5]
    simp [multiscale_unwrap, hv]
  · have hv : ms_validate unwrapped conncomp igram coherence nlooks df ntiles overhang
        = some "downsample factor must be >= 1" := by
      simp only [ms_validate]
      rw [if_neg (not_not_intro h1), if_neg (not_not_intro h2),
        if_neg (not_not_intro h3), if_neg (not_not_intro h4),
        if_neg (not_lt.mpr h5), if_pos h6]
    simp [multiscale_unwrap, hv]
  · have hv : ms_validate unwrapped conncomp igram coherence nlooks df ntiles overhang
        = some "number of tiles must be >= 1" := by
      simp only [ms_validate]
      rw [if_neg (not_not_intro h1), if_neg (not_not_intro h2),
        if_neg (not_not_intro h3), if_neg (not_not_intro h4),
        if_neg (not_lt.mpr h5), if_neg (by omega), if_pos h8]
    simp [multiscale_unwrap, hv]
  · have hv : ms_validate unwrapped conncomp igram coherence nlooks df ntiles overhang
        = some "overhang must be between 0 and 1" := by
      simp only [ms_validate]
      rw [if_neg (not_not_intro h1), if_neg (not_not_intro h2),
        if_neg (not_not_intro h3), if_neg (not_not_intro h4),
        if_neg (not_lt.mpr h5), if_neg (by omega), if_neg (by omega), if_pos h10]
    simp [multiscale_unwrap, hv]

/-- A 3-by-3 phase grid used as a mismatched output array in the C3 witness. -/
def grid_unw_bad : Grid ℚ := ⟨[3, 3], fun _ => 0⟩

/-- Witness for C3: a shape mismatch between igram and unwrapped, and an
invalid `nlooks`, each fail with their message and leave the outputs
untouched. -/
theorem multiscale_unwrap_validation_inst :
    multiscale_unwrap backend_ex resampler_ex grid_unw_bad grid_cc_ex grid_igram_ex
        grid_coh_ex 1 (3, 3) (2, 2) (1 / 2)
      = (some "shape mismatch: igram and unwrapped must have the same shape",
         grid_unw_bad.data, grid_cc_ex.data)
    ∧ multiscale_unwrap backend_ex resampler_ex grid_unw_ex grid_cc_ex grid_igram_ex
        grid_coh_ex 0 (3, 3) (2, 2) (1 / 2)
      = (some "effective number of looks must be >= 1",
         grid_unw_ex.data, grid_cc_ex.data) := by
  constructor
  · exact (multiscale_unwrap_validation backend_ex resampler_ex grid_unw_bad
      grid_cc_ex grid_igram_ex grid_coh_ex 1 (3, 3) (2, 2) (1 / 2)).1 (by decide)
  · exact (multiscale_unwrap_validation backend_ex resampler_ex grid_unw_ex
      grid_cc_ex grid_igram_ex grid_coh_ex 0 (3, 3) (2, 2) (1 / 2)).2.2.2.2.1
      rfl rfl rfl rfl (by norm_num)

theorem restrict_zero {α : Type} (a b : ℕ) (f : Pix → α) :
    restrict ⟨0, 0, a, b⟩ f = f := by
  funext p
  cases p
  simp [restrict]

theorem get_tile_dims_ones (n1 n2 : ℕ) (h1 : 1 ≤ n1) (h2 : 1 ≤ n2) :
    get_tile_dims [n1, n2] [1, 1] none = .ok [n1, n2] := by
  simp only [get_tile_dims]
  rw [if_neg (by simp), if_neg (by simp; omega), if_neg (by decide)]
  simp [ceil_div_one]

theorem tile_extent_zero (n1 n2 : ℕ) (ov : ℚ) :
    tile_extent n1 n2 n1 n2 ov 0 0 = ⟨0, 0, n1, n2⟩ := by
  unfold tile_extent
  simp only [Extent.mk.injEq]
  refine ⟨by omega, by omega, by omega, by omega⟩

theorem tile_results_single (B : Backend) (R : Resampler) (n1 n2 td1 td2 : ℕ)
    (ov : ℚ) (ig : CArr) (coh : RArr) (nl : ℚ) (df : ℕ × ℕ) :
    tile_results B R n1 n2 td1 td2 ov (1, 1) ig coh nl df
      = [(tile_extent n1 n2 td1 td2 ov 0 0,
          tile_result B R ig coh nl df (tile_extent n1 n2 td1 td2 ov 0 0))] :=
  rfl

theorem tile_result_full (B : Backend) (R : Resampler) (ig : CArr) (coh : RArr)
    (nl : ℚ) (n1 n2 : ℕ) :
    tile_result B R ig coh nl (1, 1) ⟨0, 0, n1, n2⟩
      = ⟨(B (n1, n2) ig coh nl none none none).1,
         (B (n1, n2) ig coh nl none none none).2⟩ := by
  unfold tile_result tile_unwrap
  simp only [restrict_zero]
  rfl

theorem valid_overlap_unwritten (ph : RArr) (lb : LArr) (e : Extent) (t : TRes) :
    valid_overlap ⟨ph, lb, fun _ => false⟩ e t = [] := by
  apply List.filter_eq_nil_iff.mpr
  intro a _
  simp

theorem tile_offset_unwritten (ph : RArr) (lb : LArr) (e : Extent) (t : TRes) :
    tile_offset ⟨ph, lb, fun _ => false⟩ e t = 0 := by
  simp [tile_offset, valid_overlap_unwritten]

/-- C4: with `ntiles = (1,1)` and `downsample_factor = (1,1)`, for every valid
input, `multiscale_unwrap` succeeds and its output phase and label arrays
agree, on every pixel of the array, with a single direct invocation of the
unwrap backend over the whole array with no initial estimate — no stitching
offset is applied. -/
theorem multiscale_unwrap_degenerate_eq_backend (B : Backend) (R : Resampler)
    (unwrapped : Grid ℚ) (conncomp : Grid ℕ) (igram : Grid (ℚ × ℚ))
    (coherence : Grid ℚ) (nlooks : ℚ) (overhang : ℚ) (n1 n2 : ℕ)
    (hig : igram.shape = [n1, n2]) (hu : unwrapped.shape = [n1, n2])
    (hc : conncomp.shape = [n1, n2]) (hh : coherence.shape = [n1, n2])
    (hn1 : 1 ≤ n1) (hn2 : 1 ≤ n2) (hnl : 1 ≤ nlooks)
    (ho1 : 0 ≤ overhang) (ho2 : overhang ≤ 1) :
    (multiscale_unwrap B R unwrapped conncomp igram coherence nlooks (1, 1) (1, 1)
        overhang).1 = none
    ∧ ∀ p : Pix, p.1 < n1 → p.2 < n2 →
        (multiscale_unwrap B R unwrapped conncomp igram coherence nlooks (1, 1)
            (1, 1) overhang).2.1 p
          = (B (n1, n2) igram.data coherence.data nlooks none none none).1 p
        ∧ (multiscale_unwrap B R unwrapped conncomp igram coherence nlooks (1, 1)
            (1, 1) overhang).2.2 p
          = (B (n1, n2) igram.data coherence.data nlooks none none none).2 p := by
  have hv : ms_validate unwrapped conncomp igram coherence nlooks (1, 1) (1, 1)
      overhang = none := by
    simp only [ms_validate]
    rw [if_neg (not_not_intro (hig.trans hu.symm)),
      if_neg (not_not_intro (hu.trans hc.symm)),
      if_neg (not_not_intro (hig.trans hh.symm)),
      if_neg (not_not_intro (by rw [hig]; rfl)),
      if_neg (not_lt.mpr hnl), if_neg (by omega), if_neg (by omega),
      if_neg (fun h => h.elim (fun h => absurd h (not_lt.mpr ho1))
        (fun h => absurd h (not_lt.mpr ho2)))]
  have hd : dim2 igram.shape = (n1, n2) := by rw [hig]; rfl
  have hms : multiscale_unwrap B R unwrapped conncomp igram coherence nlooks (1, 1)
      (1, 1) overhang
      = (none,
         (write_tile ⟨unwrapped.data, conncomp.data, fun _ => false⟩ ⟨0, 0, n1, n2⟩
           ⟨(B (n1, n2) igram.data coherence.data nlooks none none none).1,
            (B (n1, n2) igram.data coherence.data nlooks none none none).2⟩).phase,
         (write_tile ⟨unwrapped.data, conncomp.data, fun _ => false⟩ ⟨0, 0, n1, n2⟩
           ⟨(B (n1, n2) igram.data coherence.data nlooks none none none).1,
            (B (n1, n2) igram.data coherence.data nlooks none none none).2⟩).label) := by
    simp only [multiscale_unwrap, hv, hd]
    rw [show get_tile_dims [(n1, n2).1, (n1, n2).2] [(1, 1).1, (1, 1).2] none
        = .ok [n1, n2] from get_tile_dims_ones n1 n2 hn1 hn2]
    simp only [show dim2 [n1, n2] = (n1, n2) from rfl]
    simp only [tile_results_single, tile_extent_zero, tile_result_full]
    rfl
  rw [hms]
  refine ⟨rfl, fun p hp1 hp2 => ?_⟩
  have hm : Extent.memb ⟨0, 0, n1, n2⟩ p = true := by
    simp [Extent.memb, hp1, hp2]
  constructor
  · show (if Extent.memb ⟨0, 0, n1, n2⟩ p && !(false : Bool) then
        (B (n1, n2) igram.data coherence.data nlooks none none none).1 p
          + ((tile_offset ⟨unwrapped.data, conncomp.data, fun _ => false⟩
              ⟨0, 0, n1, n2⟩ _ : ℤ) : ℚ)
      else unwrapped.data p)
      = (B (n1, n2) igram.data coherence.data nlooks none none none).1 p
    rw [tile_offset_unwritten, hm]
    simp
  · show (if Extent.memb ⟨0, 0, n1, n2⟩ p && !(false : Bool) then
        (B (n1, n2) igram.data coherence.data nlooks none none none).2 p
      else conncomp.data p)
      = (B (n1, n2) igram.data coherence.data nlooks none none none).2 p
    rw [hm]
    simp

/-- Witness for C4 at a concrete 2-by-2 input with the example backend. -/
theorem multiscale_unwrap_degenerate_eq_backend_inst :
    (multiscale_unwrap backend_ex resampler_ex grid_unw_ex grid_cc_ex grid_igram_ex
        grid_coh_ex 1 (1, 1) (1, 1) (1 / 2)).1 = none
    ∧ (multiscale_unwrap backend_ex resampler_ex grid_unw_ex grid_cc_ex
        grid_igram_ex grid_coh_ex 1 (1, 1) (1, 1) (1 / 2)).2.1 (0, 1)
      = (backend_ex (2, 2) grid_igram_ex.data grid_coh_ex.data 1 none none none).1
          (0, 1)
    ∧ (multiscale_unwrap backend_ex resampler_ex grid_unw_ex grid_cc_ex
        grid_igram_ex grid_coh_ex 1 (1, 1) (1, 1) (1 / 2)).2.2 (0, 1)
      = (backend_ex (2, 2) grid_igram_ex.data grid_coh_ex.data 1 none none none).2
          (0, 1) := by
  have h := multiscale_unwrap_degenerate_eq_backend backend_ex resampler_ex
    grid_unw_ex grid_cc_ex grid_igram_ex grid_coh_ex 1 (1 / 2) 2 2 rfl rfl rfl rfl
    (by decide) (by decide) (by norm_num) (by norm_num) (by norm_num)
  exact ⟨h.1, (h.2 (0, 1) (by decide) (by decide)).1, (h.2 (0, 1) (by decide)
    (by decide)).2⟩

theorem write_tile_congruence (wrapped : RArr) (g : GState) (e : Extent) (t : TRes)
    (hg : ∀ p, g.written p = true → g.label p ≠ 0 →
      ∃ k : ℤ, g.phase p = wrapped p + k)
    (ht : ∀ p, e.memb p = true → t.label p ≠ 0 →
      ∃ k : ℤ, t.phase p = wrapped p + k) :
    ∀ p, (write_tile g e t).written p = true → (write_tile g e t).label p ≠ 0 →
      ∃ k : ℤ, (write_tile g e t).phase p = wrapped p + k := by
  intro p hw hl
  by_cases hcd : (e.memb p && !g.written p) = true
  · have hm : e.memb p = true := (Bool.and_eq_true_iff.mp hcd).1
    have hlt : t.label p ≠ 0 := by
      have hlab : (write_tile g e t).label p = t.label p := by
        show (if e.memb p && !g.written p then t.label p else g.label p) = t.label p
        rw [if_pos hcd]
      rwa [hlab] at hl
    obtain ⟨k, hk⟩ := ht p hm hlt
    refine ⟨k + tile_offset g e t, ?_⟩
    show (if e.memb p && !g.written p then t.phase p + (tile_offset g e t : ℚ)
      else g.phase p) = wrapped p + (k + tile_offset g e t : ℤ)
    rw [if_pos hcd, hk]
    push_cast
    ring
  · have hwor : (g.written p || e.memb p) = true := hw
    have hwg : g.written p = true := by
      rcases Bool.or_eq_true_iff.mp hwor with h | h
      · exact h
      · by_contra hng
        exact hcd (by simp [h, Bool.eq_false_iff.mpr hng])
    have hlg : g.label p ≠ 0 := by
      have hlab : (write_tile g e t).label p = g.label p := by
        show (if e.memb p && !g.written p then t.label p else g.label p) = g.label p
        rw [if_neg hcd]
      rwa [hlab] at hl
    obtain ⟨k, hk⟩ := hg p hwg hlg
    refine ⟨k, ?_⟩
    show (if e.memb p && !g.written p then t.phase p + (tile_offset g e t : ℚ)
      else g.phase p) = wrapped p + (k : ℤ)
    rw [if_neg hcd, hk]

theorem stitch_congruence (wrapped : RArr) (tiles : List (Extent × TRes))
    (H : ∀ et ∈ tiles, ∀ p : Pix, et.1.memb p = true → et.2.label p ≠ 0 →
      ∃ k : ℤ, et.2.phase p = wrapped p + k) :
    ∀ g0 : GState,
      (∀ p, g0.written p = true → g0.label p ≠ 0 →
        ∃ k : ℤ, g0.phase p = wrapped p + k) →
      ∀ p, (stitch tiles g0).written p = true → (stitch tiles g0).label p ≠ 0 →
        ∃ k : ℤ, (stitch tiles g0).phase p = wrapped p + k := by
  induction tiles with
  | nil => exact fun g0 hg0 => hg0
  | cons et rest ih =>
    intro g0 hg0
    have hstep := write_tile_congruence wrapped g0 et.1 et.2 hg0
      (H et (List.mem_cons_self et rest))
    exact ih (fun et2 h2 => H et2 (List.mem_cons_of_mem et h2))
      (stitch_step g0 et) hstep

/-- C1: in the stitching phase, the offset applied to each tile before
writing is by construction an integer number of cycles (the circular-mean
phase difference over valid overlapping pixels rounded to the nearest
multiple of 2*pi; 0 for a tile with no valid overlap with already-written
cells).  Hence, whenever each tile's unwrapped phase agrees with a common
wrapped-phase field up to integer cycles on its valid pixels — which is what
unwrapping the same interferogram means — any two tiles' offset-corrected
phases at a shared valid overlap pixel differ by an integer number of cycles
(an integer multiple of 2*pi radians), and every valid written pixel of the
final stitched output agrees with the wrapped field up to integer cycles. -/
theorem stitched_tiles_agree_mod_cycles (tiles : List (Extent × TRes))
    (wrapped : RArr) (ph0 : RArr) (lb0 : LArr)
    (H : ∀ et ∈ tiles, ∀ p : Pix, et.1.memb p = true → et.2.label p ≠ 0 →
      ∃ k : ℤ, et.2.phase p = wrapped p + k) :
    (∀ i j (hi : i < tiles.length) (hj : j < tiles.length) (p : Pix),
        (tiles.get ⟨i, hi⟩).1.memb p = true → (tiles.get ⟨j, hj⟩).1.memb p = true →
        (tiles.get ⟨i, hi⟩).2.label p ≠ 0 → (tiles.get ⟨j, hj⟩).2.label p ≠ 0 →
        ∃ k : ℤ,
          ((tiles.get ⟨i, hi⟩).2.phase p
              + (nth_offset tiles ⟨ph0, lb0, fun _ => false⟩ i : ℚ))
            - ((tiles.get ⟨j, hj⟩).2.phase p
              + (nth_offset tiles ⟨ph0, lb0, fun _ => false⟩ j : ℚ)) = k)
    ∧ (∀ p : Pix,
        (stitch tiles ⟨ph0, lb0, fun _ => false⟩).written p = true →
        (stitch tiles ⟨ph0, lb0, fun _ => false⟩).label p ≠ 0 →
        ∃ k : ℤ,
          (stitch tiles ⟨ph0, lb0, fun _ => false⟩).phase p = wrapped p + k) := by
  constructor
  · intro i j hi hj p hmi hmj hli hlj
    obtain ⟨ki, hki⟩ := H (tiles.get ⟨i, hi⟩) (tiles.get_mem i hi) p hmi hli
    obtain ⟨kj, hkj⟩ := H (tiles.get ⟨j, hj⟩) (tiles.get_mem j hj) p hmj hlj
    refine ⟨(ki + nth_offset tiles ⟨ph0, lb0, fun _ => false⟩ i)
      - (kj + nth_offset tiles ⟨ph0, lb0, fun _ => false⟩ j), ?_⟩
    rw [hki, hkj]
    push_cast
    ring
  · exact stitch_congruence wrapped tiles H ⟨ph0, lb0, fun _ => false⟩
      (fun p hw => absurd hw (by simp))

/-- First tile extent of the C1 witness: the single row 0, columns 0-1. -/
def c1_ext1 : Extent := ⟨0, 0, 1, 2⟩

/-- Second tile extent of the C1 witness: the single row 0, columns 1-2. -/
def c1_ext2 : Extent := ⟨0, 1, 1, 3⟩

/-- First tile result of the C1 witness: constant phase 1/4 cycles, label 1. -/
def c1_t1 : TRes := ⟨fun _ => 1 / 4, fun _ => 1⟩

/-- Second tile result of the C1 witness: constant phase 9/4 cycles (two whole
cycles away from the first tile), label 1. -/
def c1_t2 : TRes := ⟨fun _ => 9 / 4, fun _ => 1⟩

/-- The two overlapping tiles of the C1 witness. -/
def c1_tiles : List (Extent × TRes) := [(c1_ext1, c1_t1), (c1_ext2, c1_t2)]

/-- The wrapped-phase field of the C1 witness: constant 1/4 cycles. -/
def c1_wrapped : RArr := fun _ => 1 / 4

/-- The initial (zeroed, unwritten) stitching state of the C1 witness. -/
def c1_g0 : GState := ⟨fun _ => 0, fun _ => 0, fun _ => false⟩

/-- Witness for C1: at the shared overlap pixel (0,1) of the two concrete
tiles, the offset-corrected phases differ by an integer number of cycles. -/
theorem stitched_tiles_agree_mod_cycles_inst :
    ∃ k : ℤ,
      (c1_t1.phase (0, 1) + (nth_offset c1_tiles c1_g0 0 : ℚ))
        - (c1_t2.phase (0, 1) + (nth_offset c1_tiles c1_g0 1 : ℚ)) = k := by
  have H : ∀ et ∈ c1_tiles, ∀ p : Pix, et.1.memb p = true → et.2.label p ≠ 0 →
      ∃ k : ℤ, et.2.phase p = c1_wrapped p + k := by
    intro et het p _ _
    rcases List.mem_cons.mp het with h | h
    · exact ⟨0, by rw [h]; norm_num [c1_t1, c1_wrapped]⟩
    · rcases List.mem_cons.mp h with h2 | h2
      · exact ⟨2, by rw [h2]; norm_num [c1_t2, c1_wrapped]⟩
      · exact absurd h2 (List.not_mem_nil et)
  exact (stitched_tiles_agree_mod_cycles c1_tiles c1_wrapped (fun _ => 0)
    (fun _ => 0) H).1 0 1 (by norm_num [c1_tiles]) (by norm_num [c1_tiles]) (0, 1)
    (by decide) (by decide) (by decide) (by decide)

end Tophu
